import Mathlib

/-!
Verification development for the Sierra_Charts repository: four ACSIL trading
studies (`SMA_Crossover_Strategy.cpp`, `EMA_Crossover_Strategy.cpp`,
`ZLEMA_Crossover_Strategy.cpp`, `Hull_Crossover_Strategy.cpp`), each exporting
one study function that computes a fast and a slow moving average, detects a
crossover at the current bar, and on a crossover at bar close issues trading
requests (cancel / flatten / entry) to the host.

Prices and offsets are embedded as `Rat`.  The observable behaviour of one
evaluation cycle of a study function is embedded as the ordered list of
trading requests it issues to the host (`sc.CancelAllOrders()`,
`sc.FlattenPosition()`, `sc.BuyEntry(NewOrder)`, `sc.SellEntry(NewOrder)`).
Host (Sierra Chart SDK) functions such as `sc.SimpleMovAvg` and `sc.CrossOver`
are not part of the repository; they are modelled from the spec (§4.1, §4.2).
-/

/-- Result of `sc.CrossOver`: the source constants `CROSS_FROM_BOTTOM`
(the spec's CrossFromBelow), `CROSS_FROM_TOP` (CrossFromAbove), and no cross. -/
inductive CrossoverState where
  | noCross : CrossoverState
  | crossFromBottom : CrossoverState
  | crossFromTop : CrossoverState
deriving DecidableEq, Repr

/-- Result of `sc.GetBarHasClosedStatus()`: `BHCS_BAR_HAS_CLOSED` or
`BHCS_BAR_HAS_NOT_CLOSED`. -/
inductive BarClosedStatusEnum where
  | barHasNotClosed : BarClosedStatusEnum
  | barHasClosed : BarClosedStatusEnum
deriving DecidableEq, Repr

/-- Order-type constants used by the sources: `SCT_ORDERTYPE_MARKET`,
`SCT_ORDERTYPE_LIMIT`, `SCT_ORDERTYPE_TRAILING_STOP`. -/
inductive SCOrderType where
  | market : SCOrderType
  | limit : SCOrderType
  | trailingStop : SCOrderType
deriving DecidableEq, Repr

/-- Time-in-force constants; the sources use `SCT_TIF_GOOD_TILL_CANCELED`. -/
inductive SCTimeInForce where
  | day : SCTimeInForce
  | goodTillCanceled : SCTimeInForce
deriving DecidableEq, Repr

/-- The fields of `s_SCNewOrder` that the four study functions assign
(lines 105-112 of each source file), in source order. -/
structure s_SCNewOrder where
  OrderQuantity : Int
  OrderType : SCOrderType
  TimeInForce : SCTimeInForce
  AttachedOrderTarget1Type : SCOrderType
  AttachedOrderStop1Type : SCOrderType
  Target1Offset : Rat
  Stop1Offset : Rat
deriving DecidableEq, Repr

/-- The field of `s_SCPositionData` that the studies read after
`sc.GetTradePosition(PositionData)`: the signed net position quantity. -/
structure s_SCPositionData where
  PositionQuantity : Int
deriving DecidableEq, Repr

/-- One evaluation cycle's view of the host study interface `sc`
(`SCStudyInterfaceRef`): the chart input cells, the input price arrays, the
tick size, the autoloop bar index, the bar-closed status at this evaluation,
and the position reported by `sc.GetTradePosition`.  An input cell set with
`SetInt` or `SetInputDataIndex` stores a single integer; `GetInt` reads that
stored integer back and `GetInputDataIndex` reads it as a non-negative index
(the SDK stores both in one union). -/
structure StudyInterface where
  Input : Nat → Int
  BaseDataIn : Nat → Nat → Rat
  TickSize : Rat
  Index : Nat
  BarHasClosedStatus : BarClosedStatusEnum
  TradePosition : s_SCPositionData

/-- One trading request issued to the host during an evaluation cycle. -/
inductive Request where
  | cancelAllOrders : Request
  | flattenPosition : Request
  | buyEntry : s_SCNewOrder → Request
  | sellEntry : s_SCNewOrder → Request
deriving DecidableEq, Repr

/-- Modelled from the spec: the host function `sc.SimpleMovAvg` (not under
src/), per §4.1 Simple family — value at index `i` is the arithmetic mean of
the last `period` samples, or of all samples `0..i` when fewer than `period`
exist. -/
def simpleMovAvgAt (s : Nat → Rat) (period : Int) (i : Nat) : Rat :=
  let n := min period.toNat (i + 1)
  ((List.range n).map (fun j => s (i - j))).sum / (n : Rat)

/-- Modelled from the spec: the host function `sc.ExponentialMovAvg` (not
under src/), per §4.1 Exponential family — `value[0] = sample[0]`,
`value[i] = a * sample[i] + (1 - a) * value[i-1]` with
`a = 2 / (period + 1)`. -/
def expMovAvgAt (s : Nat → Rat) (period : Int) : Nat → Rat
  | 0 => s 0
  | i + 1 =>
    let a : Rat := 2 / ((period : Rat) + 1)
    a * s (i + 1) + (1 - a) * expMovAvgAt s period i

/-- Modelled from the spec: the lag-compensated input of §4.1 Zero-lag
family — `sample[i] + (sample[i] - sample[i - lag])` with
`lag = (period - 1) / 2` (integer division), and `sample[i]` uncompensated
while `i < lag`. -/
def zeroLagInput (s : Nat → Rat) (period : Int) (i : Nat) : Rat :=
  let lag := ((period - 1) / 2).toNat
  if i < lag then s i else s i + (s i - s (i - lag))

/-- Modelled from the spec: the host function `sc.ZeroLagEMA` (not under
src/), per §4.1 — exponential smoothing of the lag-compensated input, with
the same smoothing constant as the plain exponential family. -/
def zeroLagEMAAt (s : Nat → Rat) (period : Int) (i : Nat) : Rat :=
  expMovAvgAt (zeroLagInput s period) period i

/-- Modelled from the spec: the linearly-weighted moving average used by the
Hull family (§4.1) — weights `1..n` over the last `n = min period (i+1)`
samples, the most recent sample weighted highest. -/
def weightedMovAvgAt (s : Nat → Rat) (period : Int) (i : Nat) : Rat :=
  let n := min period.toNat (i + 1)
  ((List.range n).map (fun j => ((j + 1 : Nat) : Rat) * s (i + 1 + j - n))).sum /
    ((List.range n).map (fun j => ((j + 1 : Nat) : Rat))).sum

/-- Nearest natural number to the square root of `p` (used by the Hull
family's `sqrt(period)` argument, rounded to the nearest integer). -/
def nearestSqrt (p : Nat) : Nat :=
  let r := Nat.sqrt p
  if p - r * r ≤ (r + 1) * (r + 1) - p then r else r + 1

/-- Modelled from the spec: the host function `sc.HullMovingAverage` (not
under src/), per §4.1 Hull family —
`WMA(2 * WMA(sample, period/2) - WMA(sample, period), sqrt(period))`, every
period argument rounded to the nearest positive integer that is at least 1. -/
def hullMovingAverageAt (s : Nat → Rat) (period : Int) (i : Nat) : Rat :=
  let p := max period.toNat 1
  let ph := max ((p + 1) / 2) 1
  let ps := max (nearestSqrt p) 1
  weightedMovAvgAt
    (fun j => 2 * weightedMovAvgAt s (ph : Int) j - weightedMovAvgAt s (p : Int) j)
    (ps : Int) i

/-- Modelled from the spec: the classification rule of the host function
`sc.CrossOver` (not under src/), per §4.2 — CrossFromBelow (the source's
`CROSS_FROM_BOTTOM`) iff `fastPrev <= slowPrev && fastCur > slowCur`;
CrossFromAbove (`CROSS_FROM_TOP`) iff `fastPrev >= slowPrev && fastCur <
slowCur`; otherwise no cross. -/
def classify (fastPrev slowPrev fastCur slowCur : Rat) : CrossoverState :=
  if fastPrev ≤ slowPrev ∧ slowCur < fastCur then CrossoverState.crossFromBottom
  else if slowPrev ≤ fastPrev ∧ fastCur < slowCur then CrossoverState.crossFromTop
  else CrossoverState.noCross

/-- Modelled from the spec: `sc.CrossOver(Fast, Slow)` evaluated at autoloop
index `i` compares the two series at indices `i-1` and `i`; before index 1
there is no history and the result is no cross (§4.2, §7 MissingHistory). -/
def crossOverAt (fast slow : Nat → Rat) (i : Nat) : CrossoverState :=
  if i = 0 then CrossoverState.noCross
  else classify (fast (i - 1)) (slow (i - 1)) (fast i) (slow i)

/-- The `s_SCNewOrder` value built at lines 105-112 of every variant, as a
function of the two tick inputs and the tick size:
quantity 1, market order, good-till-canceled, limit target, trailing stop,
`Target1Offset = Target_Ticks * sc.TickSize`,
`Stop1Offset = Stop_Ticks * sc.TickSize`. -/
def buildNewOrder (targetTicks stopTicks : Int) (tickSize : Rat) : s_SCNewOrder :=
  { OrderQuantity := 1
    OrderType := SCOrderType.market
    TimeInForce := SCTimeInForce.goodTillCanceled
    AttachedOrderTarget1Type := SCOrderType.limit
    AttachedOrderStop1Type := SCOrderType.trailingStop
    Target1Offset := (targetTicks : Rat) * tickSize
    Stop1Offset := (stopTicks : Rat) * tickSize }

/-- Subgraph `SMA_Fast` of `SMA_Crossover_Strategy.cpp`, filled by line 101:
`sc.SimpleMovAvg(sc.BaseDataIn[SMA_Fast_Data.GetInputDataIndex()], SMA_Fast,
SMA_Fast_Data.GetInt())`.  Note that the period argument is
`SMA_Fast_Data.GetInt()` — the value stored in input cell 2 (the fast
input-data selector) — not `SMA_Fast_Period.GetInt()` (input cell 0). -/
def SMA_Fast_series (sc : StudyInterface) : Nat → Rat :=
  fun i => simpleMovAvgAt (sc.BaseDataIn (sc.Input 2).toNat) (sc.Input 2) i

/-- Subgraph `SMA_Slow` of `SMA_Crossover_Strategy.cpp`, filled by line 102:
`sc.SimpleMovAvg(sc.BaseDataIn[SMA_Slow_Data.GetInputDataIndex()], SMA_Slow,
SMA_Slow_Period.GetInt())`. -/
def SMA_Slow_series (sc : StudyInterface) : Nat → Rat :=
  fun i => simpleMovAvgAt (sc.BaseDataIn (sc.Input 3).toNat) (sc.Input 1) i

/-- Subgraph `EMA_Fast` of `EMA_Crossover_Strategy.cpp`, filled by line 101:
the period argument is `EMA_Fast_Data.GetInt()` (input cell 2). -/
def EMA_Fast_series (sc : StudyInterface) : Nat → Rat :=
  fun i => expMovAvgAt (sc.BaseDataIn (sc.Input 2).toNat) (sc.Input 2) i

/-- Subgraph `EMA_Slow` of `EMA_Crossover_Strategy.cpp`, filled by line 102
with period `EMA_Slow_Period.GetInt()` (input cell 1). -/
def EMA_Slow_series (sc : StudyInterface) : Nat → Rat :=
  fun i => expMovAvgAt (sc.BaseDataIn (sc.Input 3).toNat) (sc.Input 1) i

/-- Subgraph `ZLEMA_Fast` of `ZLEMA_Crossover_Strategy.cpp`, filled by line
101: the period argument is `ZLEMA_Fast_Data.GetInt()` (input cell 2). -/
def ZLEMA_Fast_series (sc : StudyInterface) : Nat → Rat :=
  fun i => zeroLagEMAAt (sc.BaseDataIn (sc.Input 2).toNat) (sc.Input 2) i

/-- Subgraph `ZLEMA_Slow` of `ZLEMA_Crossover_Strategy.cpp`, filled by line
102 with period `ZLEMA_Slow_Period.GetInt()` (input cell 1). -/
def ZLEMA_Slow_series (sc : StudyInterface) : Nat → Rat :=
  fun i => zeroLagEMAAt (sc.BaseDataIn (sc.Input 3).toNat) (sc.Input 1) i

/-- Subgraph `Hull_Fast` of `Hull_Crossover_Strategy.cpp`, filled by line
101: the period argument is `Hull_Fast_Data.GetInt()` (input cell 2). -/
def Hull_Fast_series (sc : StudyInterface) : Nat → Rat :=
  fun i => hullMovingAverageAt (sc.BaseDataIn (sc.Input 2).toNat) (sc.Input 2) i

/-- Subgraph `Hull_Slow` of `Hull_Crossover_Strategy.cpp`, filled by line
102 with period `Hull_Slow_Period.GetInt()` (input cell 1). -/
def Hull_Slow_series (sc : StudyInterface) : Nat → Rat :=
  fun i => hullMovingAverageAt (sc.BaseDataIn (sc.Input 3).toNat) (sc.Input 1) i

/-- One evaluation cycle of `scsf_SMA_Crossover_Trading` (lines 100-144 of
`SMA_Crossover_Strategy.cpp`), after the `sc.SetDefaults` block: the ordered
list of trading requests issued to the host. -/
def scsf_SMA_Crossover_Trading (sc : StudyInterface) : List Request :=
  let SMA_Fast := SMA_Fast_series sc
  let SMA_Slow := SMA_Slow_series sc
  let Target_Ticks := sc.Input 4
  let Stop_Ticks := sc.Input 5
  let NewOrder : s_SCNewOrder := buildNewOrder Target_Ticks Stop_Ticks sc.TickSize
  let PositionData : s_SCPositionData := sc.TradePosition
  if sc.BarHasClosedStatus = BarClosedStatusEnum.barHasClosed then
    (if crossOverAt SMA_Fast SMA_Slow sc.Index = CrossoverState.crossFromBottom then
      (if PositionData.PositionQuantity < 0 then
        [Request.cancelAllOrders, Request.flattenPosition]
      else []) ++ [Request.buyEntry NewOrder]
    else []) ++
    (if crossOverAt SMA_Fast SMA_Slow sc.Index = CrossoverState.crossFromTop then
      (if PositionData.PositionQuantity > 0 then
        [Request.cancelAllOrders, Request.flattenPosition]
      else []) ++ [Request.sellEntry NewOrder]
    else [])
  else []

/-- One evaluation cycle of `scsf_EMA_Crossover_Trading` (lines 100-144 of
`EMA_Crossover_Strategy.cpp`). -/
def scsf_EMA_Crossover_Trading (sc : StudyInterface) : List Request :=
  let EMA_Fast := EMA_Fast_series sc
  let EMA_Slow := EMA_Slow_series sc
  let Target_Ticks := sc.Input 4
  let Stop_Ticks := sc.Input 5
  let NewOrder : s_SCNewOrder := buildNewOrder Target_Ticks Stop_Ticks sc.TickSize
  let PositionData : s_SCPositionData := sc.TradePosition
  if sc.BarHasClosedStatus = BarClosedStatusEnum.barHasClosed then
    (if crossOverAt EMA_Fast EMA_Slow sc.Index = CrossoverState.crossFromBottom then
      (if PositionData.PositionQuantity < 0 then
        [Request.cancelAllOrders, Request.flattenPosition]
      else []) ++ [Request.buyEntry NewOrder]
    else []) ++
    (if crossOverAt EMA_Fast EMA_Slow sc.Index = CrossoverState.crossFromTop then
      (if PositionData.PositionQuantity > 0 then
        [Request.cancelAllOrders, Request.flattenPosition]
      else []) ++ [Request.sellEntry NewOrder]
    else [])
  else []

/-- One evaluation cycle of `scsf_ZLEMA_Crossover_Trading` (lines 100-144 of
`ZLEMA_Crossover_Strategy.cpp`). -/
def scsf_ZLEMA_Crossover_Trading (sc : StudyInterface) : List Request :=
  let ZLEMA_Fast := ZLEMA_Fast_series sc
  let ZLEMA_Slow := ZLEMA_Slow_series sc
  let Target_Ticks := sc.Input 4
  let Stop_Ticks := sc.Input 5
  let NewOrder : s_SCNewOrder := buildNewOrder Target_Ticks Stop_Ticks sc.TickSize
  let PositionData : s_SCPositionData := sc.TradePosition
  if sc.BarHasClosedStatus = BarClosedStatusEnum.barHasClosed then
    (if crossOverAt ZLEMA_Fast ZLEMA_Slow sc.Index = CrossoverState.crossFromBottom then
      (if PositionData.PositionQuantity < 0 then
        [Request.cancelAllOrders, Request.flattenPosition]
      else []) ++ [Request.buyEntry NewOrder]
    else []) ++
    (if crossOverAt ZLEMA_Fast ZLEMA_Slow sc.Index = CrossoverState.crossFromTop then
      (if PositionData.PositionQuantity > 0 then
        [Request.cancelAllOrders, Request.flattenPosition]
      else []) ++ [Request.sellEntry NewOrder]
    else [])
  else []

/-- One evaluation cycle of `scsf_Hull_Crossover_Trading` (lines 100-144 of
`Hull_Crossover_Strategy.cpp`). -/
def scsf_Hull_Crossover_Trading (sc : StudyInterface) : List Request :=
  let Hull_Fast := Hull_Fast_series sc
  let Hull_Slow := Hull_Slow_series sc
  let Target_Ticks := sc.Input 4
  let Stop_Ticks := sc.Input 5
  let NewOrder : s_SCNewOrder := buildNewOrder Target_Ticks Stop_Ticks sc.TickSize
  let PositionData : s_SCPositionData := sc.TradePosition
  if sc.BarHasClosedStatus = BarClosedStatusEnum.barHasClosed then
    (if crossOverAt Hull_Fast Hull_Slow sc.Index = CrossoverState.crossFromBottom then
      (if PositionData.PositionQuantity < 0 then
        [Request.cancelAllOrders, Request.flattenPosition]
      else []) ++ [Request.buyEntry NewOrder]
    else []) ++
    (if crossOverAt Hull_Fast Hull_Slow sc.Index = CrossoverState.crossFromTop then
      (if PositionData.PositionQuantity > 0 then
        [Request.cancelAllOrders, Request.flattenPosition]
      else []) ++ [Request.sellEntry NewOrder]
    else [])
  else []

/-- The four moving-average families, one per source file. -/
inductive Family where
  | sma : Family
  | ema : Family
  | zlema : Family
  | hull : Family
deriving DecidableEq, Repr

/-- The study function of each variant. -/
def evalVariant : Family → StudyInterface → List Request
  | Family.sma => scsf_SMA_Crossover_Trading
  | Family.ema => scsf_EMA_Crossover_Trading
  | Family.zlema => scsf_ZLEMA_Crossover_Trading
  | Family.hull => scsf_Hull_Crossover_Trading

/-- The fast subgraph of each variant. -/
def fastSeriesOf : Family → StudyInterface → Nat → Rat
  | Family.sma => SMA_Fast_series
  | Family.ema => EMA_Fast_series
  | Family.zlema => ZLEMA_Fast_series
  | Family.hull => Hull_Fast_series

/-- The slow subgraph of each variant. -/
def slowSeriesOf : Family → StudyInterface → Nat → Rat
  | Family.sma => SMA_Slow_series
  | Family.ema => EMA_Slow_series
  | Family.zlema => ZLEMA_Slow_series
  | Family.hull => Hull_Slow_series

/-- The decision part shared, token for token, by the four study functions
(lines 104-143 of each file), abstracted over the two subgraph series. -/
def tradingCore (fast slow : Nat → Rat) (sc : StudyInterface) : List Request :=
  let NewOrder : s_SCNewOrder := buildNewOrder (sc.Input 4) (sc.Input 5) sc.TickSize
  if sc.BarHasClosedStatus = BarClosedStatusEnum.barHasClosed then
    (if crossOverAt fast slow sc.Index = CrossoverState.crossFromBottom then
      (if sc.TradePosition.PositionQuantity < 0 then
        [Request.cancelAllOrders, Request.flattenPosition]
      else []) ++ [Request.buyEntry NewOrder]
    else []) ++
    (if crossOverAt fast slow sc.Index = CrossoverState.crossFromTop then
      (if sc.TradePosition.PositionQuantity > 0 then
        [Request.cancelAllOrders, Request.flattenPosition]
      else []) ++ [Request.sellEntry NewOrder]
    else [])
  else []

/-- Each variant is the shared decision core applied to its own subgraphs. -/
theorem evalVariant_eq_core (f : Family) (sc : StudyInterface) :
    evalVariant f sc = tradingCore (fastSeriesOf f sc) (slowSeriesOf f sc) sc := by
  cases f <;> rfl

/-- Whether a request is an entry submission (`sc.BuyEntry` / `sc.SellEntry`). -/
def Request.isEntry : Request → Bool
  | Request.buyEntry _ => true
  | Request.sellEntry _ => true
  | _ => false

/-- Number of entry submissions in a request list. -/
def entryCount (l : List Request) : Nat :=
  (l.filter Request.isEntry).length

/-- Classification of the first branch of `classify`. -/
theorem classify_eq_bottom_iff (a b c d : Rat) :
    classify a b c d = CrossoverState.crossFromBottom ↔ (a ≤ b ∧ d < c) := by
  unfold classify
  split_ifs with h1 h2
  · simp [h1]
  · constructor
    · intro h; exact absurd h (by simp)
    · intro h; exact absurd h h1
  · constructor
    · intro h; exact absurd h (by simp)
    · intro h; exact absurd h h1

/-- Classification of the second branch of `classify`. -/
theorem classify_eq_top_iff (a b c d : Rat) :
    classify a b c d = CrossoverState.crossFromTop ↔ (b ≤ a ∧ c < d) := by
  unfold classify
  split_ifs with h1 h2
  · constructor
    · intro h; exact absurd h (by simp)
    · rintro ⟨_, hcd⟩; exact absurd h1.2 (lt_asymm hcd)
  · simp [h2]
  · constructor
    · intro h; exact absurd h (by simp)
    · intro h; exact absurd h h2

/-- `tradingCore` on an evaluation before bar close issues nothing. -/
theorem tradingCore_not_closed (fast slow : Nat → Rat) (sc : StudyInterface)
    (h : sc.BarHasClosedStatus ≠ BarClosedStatusEnum.barHasClosed) :
    tradingCore fast slow sc = [] := by
  simp [tradingCore, h]

/-- `tradingCore` on a no-cross evaluation issues nothing. -/
theorem tradingCore_noCross (fast slow : Nat → Rat) (sc : StudyInterface)
    (h : crossOverAt fast slow sc.Index = CrossoverState.noCross) :
    tradingCore fast slow sc = [] := by
  simp [tradingCore, h]

/-- `tradingCore` on a cross-from-bottom bar close: an optional
cancel-and-flatten pair (exactly when short) followed by the buy entry. -/
theorem tradingCore_bottom (fast slow : Nat → Rat) (sc : StudyInterface)
    (hb : sc.BarHasClosedStatus = BarClosedStatusEnum.barHasClosed)
    (hc : crossOverAt fast slow sc.Index = CrossoverState.crossFromBottom) :
    tradingCore fast slow sc =
      (if sc.TradePosition.PositionQuantity < 0 then
        [Request.cancelAllOrders, Request.flattenPosition]
      else []) ++
      [Request.buyEntry (buildNewOrder (sc.Input 4) (sc.Input 5) sc.TickSize)] := by
  simp [tradingCore, hb, hc]

/-- `tradingCore` on a cross-from-top bar close: an optional
cancel-and-flatten pair (exactly when long) followed by the sell entry. -/
theorem tradingCore_top (fast slow : Nat → Rat) (sc : StudyInterface)
    (hb : sc.BarHasClosedStatus = BarClosedStatusEnum.barHasClosed)
    (hc : crossOverAt fast slow sc.Index = CrossoverState.crossFromTop) :
    tradingCore fast slow sc =
      (if sc.TradePosition.PositionQuantity > 0 then
        [Request.cancelAllOrders, Request.flattenPosition]
      else []) ++
      [Request.sellEntry (buildNewOrder (sc.Input 4) (sc.Input 5) sc.TickSize)] := by
  simp [tradingCore, hb, hc]

/-- Any entry request issued by `tradingCore` carries exactly the order
built by `buildNewOrder` from input cells 4 and 5 and the tick size. -/
theorem entry_mem_core (fast slow : Nat → Rat) (sc : StudyInterface)
    (o : s_SCNewOrder)
    (h : Request.buyEntry o ∈ tradingCore fast slow sc ∨
         Request.sellEntry o ∈ tradingCore fast slow sc) :
    o = buildNewOrder (sc.Input 4) (sc.Input 5) sc.TickSize := by
  unfold tradingCore at h
  split_ifs at h <;> simp_all

/-- Concrete evaluation for the fast-period wiring: the default input cells
of `SMA_Crossover_Strategy.cpp` (`SMA_Fast_Period = 9`, `SMA_Slow_Period =
9`, both input-data selectors at `SC_LAST = 3`, `Target_Ticks = Stop_Ticks =
80`), price field values `12, 0, 0, 0`, evaluated at bar index 3. -/
def c1Study : StudyInterface :=
  { Input := fun k => ([9, 9, 3, 3, 80, 80] : List Int).getD k 0
    BaseDataIn := fun _ i => ([12, 0, 0, 0] : List Rat).getD i 0
    TickSize := 1 / 4
    Index := 3
    BarHasClosedStatus := BarClosedStatusEnum.barHasClosed
    TradePosition := { PositionQuantity := 0 } }

/-- Evaluation at bar index 3 of prices `0, 0, 0, 30` (field 3), default
input cells, a short position of one contract, at bar close: the fast
subgraph crosses the slow one from below at index 3. -/
def studyShortBelow : StudyInterface :=
  { Input := fun k => ([9, 9, 3, 3, 80, 80] : List Int).getD k 0
    BaseDataIn := fun _ i => ([0, 0, 0, 30] : List Rat).getD i 0
    TickSize := 1 / 4
    Index := 3
    BarHasClosedStatus := BarClosedStatusEnum.barHasClosed
    TradePosition := { PositionQuantity := -1 } }

/-- Evaluation at bar index 3 of prices `0, 0, 0, -30`, default input cells,
a long position of two contracts, at bar close: the fast subgraph crosses
the slow one from above at index 3. -/
def studyLongAbove : StudyInterface :=
  { Input := fun k => ([9, 9, 3, 3, 80, 80] : List Int).getD k 0
    BaseDataIn := fun _ i => ([0, 0, 0, -30] : List Rat).getD i 0
    TickSize := 1 / 4
    Index := 3
    BarHasClosedStatus := BarClosedStatusEnum.barHasClosed
    TradePosition := { PositionQuantity := 2 } }

/-- Same bars and cells as `studyShortBelow` but with a flat position. -/
def studyFlatBelow : StudyInterface :=
  { studyShortBelow with TradePosition := { PositionQuantity := 0 } }

/-- Same bars and cells as `studyShortBelow` but evaluated mid-bar, before
the bar has closed. -/
def studyMidBar : StudyInterface :=
  { studyShortBelow with BarHasClosedStatus := BarClosedStatusEnum.barHasNotClosed }

/-- Same cells and position as `studyShortBelow` but over a constant price
series, so no crossover fires. -/
def studyNoCrossBars : StudyInterface :=
  { studyShortBelow with BaseDataIn := fun _ _ => 0 }

/-- All input cells 1, all price fields constant 0, bar index 5, at bar
close, flat: the simple and exponential subgraphs coincide (both are 0). -/
def c8Study : StudyInterface :=
  { Input := fun _ => 1
    BaseDataIn := fun _ _ => 0
    TickSize := 1
    Index := 5
    BarHasClosedStatus := BarClosedStatusEnum.barHasClosed
    TradePosition := { PositionQuantity := 0 } }

/-- First of two field-for-field identical evaluation inputs. -/
def c10StudyA : StudyInterface :=
  { Input := fun k => ([9, 9, 3, 3, 80, 80] : List Int).getD k 0
    BaseDataIn := fun _ i => ([0, 0, 0, 30] : List Rat).getD i 0
    TickSize := 1 / 4
    Index := 3
    BarHasClosedStatus := BarClosedStatusEnum.barHasClosed
    TradePosition := { PositionQuantity := -1 } }

/-- Second of two field-for-field identical evaluation inputs. -/
def c10StudyB : StudyInterface :=
  { Input := fun k => ([9, 9, 3, 3, 80, 80] : List Int).getD k 0
    BaseDataIn := fun _ i => ([0, 0, 0, 30] : List Rat).getD i 0
    TickSize := 1 / 4
    Index := 3
    BarHasClosedStatus := BarClosedStatusEnum.barHasClosed
    TradePosition := { PositionQuantity := -1 } }

/-- C1: the claim says the fast series is computed with the configured fast
period (input cell 0, default 9).  It is not: line 101 of
`SMA_Crossover_Strategy.cpp` passes `SMA_Fast_Data.GetInt()` — input cell 2,
the fast input-data selector, holding `SC_LAST = 3` — as the period, and
input cell 0 is never read.  At the default cells with prices `12, 0, 0, 0`,
the code's fast value at index 3 is `(0+0+0)/3 = 0`, while the mean with the
configured period 9 over the 4 available samples is `12/4 = 3`. -/
theorem sma_fast_period_taken_from_data_selector :
    SMA_Fast_series c1Study 3 = 0 ∧
    simpleMovAvgAt (c1Study.BaseDataIn (c1Study.Input 2).toNat) (c1Study.Input 0) 3 = 3 ∧
    SMA_Fast_series c1Study 3 ≠
      simpleMovAvgAt (c1Study.BaseDataIn (c1Study.Input 2).toNat) (c1Study.Input 0) 3 := by
  have h0 : SMA_Fast_series c1Study 3 = 0 := by
    simp [SMA_Fast_series, simpleMovAvgAt, c1Study, List.range_succ]
  have h3 : simpleMovAvgAt (c1Study.BaseDataIn (c1Study.Input 2).toNat) (c1Study.Input 0) 3 = 3 := by
    simp [simpleMovAvgAt, c1Study, List.range_succ]
    norm_num
  refine ⟨h0, h3, ?_⟩
  rw [h0, h3]
  norm_num

/-- C7: the crossover classification returns cross-from-bottom (the spec's
CrossFromBelow) iff `fastPrev <= slowPrev` and `fastCur > slowCur`,
cross-from-top (CrossFromAbove) iff `fastPrev >= slowPrev` and
`fastCur < slowCur`, and in particular reports no cross when fast equals
slow at both the previous and the current index. -/
theorem classify_characterization (a b c d : Rat) :
    (classify a b c d = CrossoverState.crossFromBottom ↔ (a ≤ b ∧ d < c)) ∧
    (classify a b c d = CrossoverState.crossFromTop ↔ (b ≤ a ∧ c < d)) ∧
    (a = b ∧ c = d → classify a b c d = CrossoverState.noCross) := by
  refine ⟨classify_eq_bottom_iff a b c d, classify_eq_top_iff a b c d, ?_⟩
  rintro ⟨rfl, rfl⟩
  unfold classify
  split_ifs with h1
  · exact absurd h1.2 (lt_irrefl c)
  · rfl

/-- Witness for C7 at the all-tied transition `fast = slow = 1` then
`fast = slow = 2`. -/
theorem classify_characterization_witness :
    classify 1 1 2 2 = CrossoverState.noCross :=
  (classify_characterization 1 1 2 2).2.2 ⟨rfl, rfl⟩

/-- C2: on a bar-close evaluation classified cross-from-bottom while the
reported position quantity is strictly negative, the emitted request
sequence is exactly cancel-all-orders, flatten, buy entry, in that order;
symmetrically, cross-from-top with strictly positive quantity emits exactly
cancel-all-orders, flatten, sell entry. -/
theorem opposing_position_emits_cancel_flatten_entry (f : Family) (sc : StudyInterface)
    (hb : sc.BarHasClosedStatus = BarClosedStatusEnum.barHasClosed) :
    (crossOverAt (fastSeriesOf f sc) (slowSeriesOf f sc) sc.Index = CrossoverState.crossFromBottom →
      sc.TradePosition.PositionQuantity < 0 →
      evalVariant f sc = [Request.cancelAllOrders, Request.flattenPosition,
        Request.buyEntry (buildNewOrder (sc.Input 4) (sc.Input 5) sc.TickSize)]) ∧
    (crossOverAt (fastSeriesOf f sc) (slowSeriesOf f sc) sc.Index = CrossoverState.crossFromTop →
      0 < sc.TradePosition.PositionQuantity →
      evalVariant f sc = [Request.cancelAllOrders, Request.flattenPosition,
        Request.sellEntry (buildNewOrder (sc.Input 4) (sc.Input 5) sc.TickSize)]) := by
  rw [evalVariant_eq_core]
  constructor
  · intro hc hq
    rw [tradingCore_bottom _ _ _ hb hc, if_pos hq]
    rfl
  · intro hc hq
    rw [tradingCore_top _ _ _ hb hc, if_pos hq]
    rfl

/-- Witness for C2: the SMA variant at bar index 3 of prices `0, 0, 0, 30`
while short one contract, and of prices `0, 0, 0, -30` while long two. -/
theorem opposing_position_emits_cancel_flatten_entry_witness :
    evalVariant Family.sma studyShortBelow =
      [Request.cancelAllOrders, Request.flattenPosition,
        Request.buyEntry (buildNewOrder (studyShortBelow.Input 4)
          (studyShortBelow.Input 5) studyShortBelow.TickSize)] ∧
    evalVariant Family.sma studyLongAbove =
      [Request.cancelAllOrders, Request.flattenPosition,
        Request.sellEntry (buildNewOrder (studyLongAbove.Input 4)
          (studyLongAbove.Input 5) studyLongAbove.TickSize)] :=
  ⟨(opposing_position_emits_cancel_flatten_entry Family.sma studyShortBelow rfl).1
      (by simp [crossOverAt, classify, fastSeriesOf, SMA_Fast_series, slowSeriesOf,
            SMA_Slow_series, simpleMovAvgAt, studyShortBelow, List.range_succ]
          norm_num)
      (by decide),
   (opposing_position_emits_cancel_flatten_entry Family.sma studyLongAbove rfl).2
      (by simp [crossOverAt, classify, fastSeriesOf, SMA_Fast_series, slowSeriesOf,
            SMA_Slow_series, simpleMovAvgAt, studyLongAbove, List.range_succ]
          norm_num)
      (by decide)⟩

/-- C3: on a bar-close crossover, cancel-all-orders and flatten are emitted
exactly when the reported position opposes the signal (quantity strictly
negative on cross-from-bottom, strictly positive on cross-from-top); when
flat or already in the signal direction the entry is submitted with no
preceding cancel or flatten, and a flatten is always followed by the entry
opposite to the old position, never one in its direction. -/
theorem cancel_flatten_iff_opposing (f : Family) (sc : StudyInterface)
    (hb : sc.BarHasClosedStatus = BarClosedStatusEnum.barHasClosed) :
    (crossOverAt (fastSeriesOf f sc) (slowSeriesOf f sc) sc.Index = CrossoverState.crossFromBottom →
      evalVariant f sc =
        (if sc.TradePosition.PositionQuantity < 0 then
          [Request.cancelAllOrders, Request.flattenPosition]
        else []) ++
        [Request.buyEntry (buildNewOrder (sc.Input 4) (sc.Input 5) sc.TickSize)]) ∧
    (crossOverAt (fastSeriesOf f sc) (slowSeriesOf f sc) sc.Index = CrossoverState.crossFromTop →
      evalVariant f sc =
        (if sc.TradePosition.PositionQuantity > 0 then
          [Request.cancelAllOrders, Request.flattenPosition]
        else []) ++
        [Request.sellEntry (buildNewOrder (sc.Input 4) (sc.Input 5) sc.TickSize)]) := by
  rw [evalVariant_eq_core]
  exact ⟨fun hc => tradingCore_bottom _ _ _ hb hc, fun hc => tradingCore_top _ _ _ hb hc⟩

/-- Witness for C3: the SMA variant on a cross-from-bottom bar close with a
flat position submits the buy entry with no cancel and no flatten. -/
theorem cancel_flatten_iff_opposing_witness :
    evalVariant Family.sma studyFlatBelow =
      [Request.buyEntry (buildNewOrder (studyFlatBelow.Input 4)
        (studyFlatBelow.Input 5) studyFlatBelow.TickSize)] := by
  have h := (cancel_flatten_iff_opposing Family.sma studyFlatBelow rfl).1
    (by simp [crossOverAt, classify, fastSeriesOf, SMA_Fast_series, slowSeriesOf,
          SMA_Slow_series, simpleMovAvgAt, studyFlatBelow, studyShortBelow, List.range_succ]
        norm_num)
  simpa using h

/-- C4: an evaluation whose crossover classification is no-cross emits no
request at all, whatever the position and bar-closed status. -/
theorem noCross_emits_nothing (f : Family) (sc : StudyInterface)
    (hc : crossOverAt (fastSeriesOf f sc) (slowSeriesOf f sc) sc.Index = CrossoverState.noCross) :
    evalVariant f sc = [] := by
  rw [evalVariant_eq_core]
  exact tradingCore_noCross _ _ _ hc

/-- Witness for C4: the SMA variant over a constant price series while
short emits nothing. -/
theorem noCross_emits_nothing_witness :
    evalVariant Family.sma studyNoCrossBars = [] :=
  noCross_emits_nothing Family.sma studyNoCrossBars
    (by simp [crossOverAt, classify, fastSeriesOf, SMA_Fast_series, slowSeriesOf,
          SMA_Slow_series, simpleMovAvgAt, studyNoCrossBars, studyShortBelow, List.range_succ])

/-- C5: requests are emitted only when the bar-closed status equals
bar-has-closed — a mid-bar evaluation emits nothing — and a single
evaluation submits at most one entry (never both a buy and a sell). -/
theorem bar_close_gating_and_single_entry (f : Family) (sc : StudyInterface) :
    (sc.BarHasClosedStatus ≠ BarClosedStatusEnum.barHasClosed → evalVariant f sc = []) ∧
    entryCount (evalVariant f sc) ≤ 1 := by
  rw [evalVariant_eq_core]
  refine ⟨fun h => tradingCore_not_closed _ _ _ h, ?_⟩
  by_cases hb : sc.BarHasClosedStatus = BarClosedStatusEnum.barHasClosed
  · rcases hcr : crossOverAt (fastSeriesOf f sc) (slowSeriesOf f sc) sc.Index with _ | _ | _
    · rw [tradingCore_noCross _ _ _ hcr]
      simp [entryCount]
    · rw [tradingCore_bottom _ _ _ hb hcr]
      split_ifs <;> simp [entryCount, Request.isEntry]
    · rw [tradingCore_top _ _ _ hb hcr]
      split_ifs <;> simp [entryCount, Request.isEntry]
  · rw [tradingCore_not_closed _ _ _ hb]
    simp [entryCount]

/-- Witness for C5: the SMA variant evaluated mid-bar on data that would
cross emits nothing, and its entry count is at most one. -/
theorem bar_close_gating_and_single_entry_witness :
    evalVariant Family.sma studyMidBar = [] ∧
    entryCount (evalVariant Family.sma studyMidBar) ≤ 1 :=
  ⟨(bar_close_gating_and_single_entry Family.sma studyMidBar).1 (by decide),
   (bar_close_gating_and_single_entry Family.sma studyMidBar).2⟩

/-- C6: every order carried by a submitted entry is exactly the one built
from the configuration — quantity 1, market order kind, good-till-canceled,
stop offset `Stop_Ticks * TickSize` and target offset
`Target_Ticks * TickSize` — a pure function of input cells 4 and 5 and the
tick size, independent of the bar data and the position. -/
theorem entry_order_fields (f : Family) (sc : StudyInterface) (o : s_SCNewOrder)
    (h : Request.buyEntry o ∈ evalVariant f sc ∨ Request.sellEntry o ∈ evalVariant f sc) :
    o = buildNewOrder (sc.Input 4) (sc.Input 5) sc.TickSize ∧
    o.OrderQuantity = 1 ∧
    o.OrderType = SCOrderType.market ∧
    o.TimeInForce = SCTimeInForce.goodTillCanceled ∧
    o.Stop1Offset = (sc.Input 5 : Rat) * sc.TickSize ∧
    o.Target1Offset = (sc.Input 4 : Rat) * sc.TickSize := by
  rw [evalVariant_eq_core] at h
  have ho := entry_mem_core _ _ _ _ h
  subst ho
  exact ⟨rfl, rfl, rfl, rfl, rfl, rfl⟩

/-- Witness for C6 at the short-position cross-from-bottom evaluation. -/
theorem entry_order_fields_witness :
    buildNewOrder (studyShortBelow.Input 4) (studyShortBelow.Input 5) studyShortBelow.TickSize =
      buildNewOrder (studyShortBelow.Input 4) (studyShortBelow.Input 5) studyShortBelow.TickSize ∧
    (buildNewOrder (studyShortBelow.Input 4) (studyShortBelow.Input 5)
      studyShortBelow.TickSize).OrderQuantity = 1 ∧
    (buildNewOrder (studyShortBelow.Input 4) (studyShortBelow.Input 5)
      studyShortBelow.TickSize).OrderType = SCOrderType.market ∧
    (buildNewOrder (studyShortBelow.Input 4) (studyShortBelow.Input 5)
      studyShortBelow.TickSize).TimeInForce = SCTimeInForce.goodTillCanceled ∧
    (buildNewOrder (studyShortBelow.Input 4) (studyShortBelow.Input 5)
      studyShortBelow.TickSize).Stop1Offset = (studyShortBelow.Input 5 : Rat) * studyShortBelow.TickSize ∧
    (buildNewOrder (studyShortBelow.Input 4) (studyShortBelow.Input 5)
      studyShortBelow.TickSize).Target1Offset = (studyShortBelow.Input 4 : Rat) * studyShortBelow.TickSize :=
  entry_order_fields Family.sma studyShortBelow _
    (Or.inl (by
      simp [evalVariant, scsf_SMA_Crossover_Trading, SMA_Fast_series, SMA_Slow_series,
        crossOverAt, classify, simpleMovAvgAt, studyShortBelow, List.range_succ]
      norm_num))

/-- C9: every submitted entry's attached exits have fixed kinds — the
target (Target1) is a limit order, and the stop (Stop1) is a trailing
stop order. -/
theorem attached_exit_order_kinds (f : Family) (sc : StudyInterface) (o : s_SCNewOrder)
    (h : Request.buyEntry o ∈ evalVariant f sc ∨ Request.sellEntry o ∈ evalVariant f sc) :
    o.AttachedOrderTarget1Type = SCOrderType.limit ∧
    o.AttachedOrderStop1Type = SCOrderType.trailingStop := by
  rw [evalVariant_eq_core] at h
  have ho := entry_mem_core _ _ _ _ h
  subst ho
  exact ⟨rfl, rfl⟩

/-- Witness for C9 at the long-position cross-from-top evaluation. -/
theorem attached_exit_order_kinds_witness :
    (buildNewOrder (studyLongAbove.Input 4) (studyLongAbove.Input 5)
      studyLongAbove.TickSize).AttachedOrderTarget1Type = SCOrderType.limit ∧
    (buildNewOrder (studyLongAbove.Input 4) (studyLongAbove.Input 5)
      studyLongAbove.TickSize).AttachedOrderStop1Type = SCOrderType.trailingStop :=
  attached_exit_order_kinds Family.sma studyLongAbove _
    (Or.inr (by
      simp [evalVariant, scsf_SMA_Crossover_Trading, SMA_Fast_series, SMA_Slow_series,
        crossOverAt, classify, simpleMovAvgAt, studyLongAbove, List.range_succ]
      norm_num))

/-- The simple moving average of a constant-zero series is zero. -/
theorem simpleMovAvg_zero (p : Int) (i : Nat) :
    simpleMovAvgAt (fun _ => (0 : Rat)) p i = 0 := by
  simp [simpleMovAvgAt]

/-- The exponential moving average of a constant-zero series is zero. -/
theorem expMovAvg_zero (p : Int) (i : Nat) :
    expMovAvgAt (fun _ => (0 : Rat)) p i = 0 := by
  induction i with
  | zero => rfl
  | succ n ih => simp [expMovAvgAt, ih]

/-- C8: the four variants are observationally equivalent up to the smoothing
function — whenever the fast and slow subgraph series of two variants
coincide on the same evaluation inputs, the two variants emit identical
request sequences. -/
theorem variants_agree_on_equal_series (f g : Family) (sc : StudyInterface)
    (hfast : ∀ i, fastSeriesOf f sc i = fastSeriesOf g sc i)
    (hslow : ∀ i, slowSeriesOf f sc i = slowSeriesOf g sc i) :
    evalVariant f sc = evalVariant g sc := by
  rw [evalVariant_eq_core, evalVariant_eq_core, funext hfast, funext hslow]

/-- Witness for C8: on a constant-zero price series with all input cells 1,
the SMA and EMA subgraphs coincide, and the two variants emit the same
requests. -/
theorem variants_agree_on_equal_series_witness :
    evalVariant Family.sma c8Study = evalVariant Family.ema c8Study :=
  variants_agree_on_equal_series Family.sma Family.ema c8Study
    (fun i => (simpleMovAvg_zero 1 i).trans (expMovAvg_zero 1 i).symm)
    (fun i => (simpleMovAvg_zero 1 i).trans (expMovAvg_zero 1 i).symm)

/-- C10: one evaluation cycle is deterministic — two evaluations whose bar
data, input cells, tick size, bar index, bar-closed status and reported
position agree componentwise emit identical request sequences; no other
state enters the decision. -/
theorem evaluation_deterministic (f : Family) (sc1 sc2 : StudyInterface)
    (hInput : sc1.Input = sc2.Input)
    (hBase : sc1.BaseDataIn = sc2.BaseDataIn)
    (hTick : sc1.TickSize = sc2.TickSize)
    (hIdx : sc1.Index = sc2.Index)
    (hStatus : sc1.BarHasClosedStatus = sc2.BarHasClosedStatus)
    (hPos : sc1.TradePosition = sc2.TradePosition) :
    evalVariant f sc1 = evalVariant f sc2 := by
  have h : sc1 = sc2 := by
    cases sc1
    cases sc2
    simp_all
  rw [h]

/-- Witness for C10: two field-for-field identical evaluation inputs give
the same requests. -/
theorem evaluation_deterministic_witness :
    evalVariant Family.sma c10StudyA = evalVariant Family.sma c10StudyB :=
  evaluation_deterministic Family.sma c10StudyA c10StudyB rfl rfl rfl rfl rfl rfl
